import Mathlib

/-!
Verification model of the block replication engine of syndicate-fs-driver
(src/sgfsdriver/lib/replication.py), shallowly embedded over an explicit
backend-filesystem state.  Data files are byte lists; the pickled metadata
sidecar and undo log are modelled as typed blobs (their byte layout is not
observable through any operation of the engine).  Backend semantics follow
the local-POSIX plugin (src/sgfsdriver/plugins/local/local.py): reads past
the end of a file are short, writes zero-fill gaps, truncate shrinks or
zero-extends.  Directories are not modelled; make_dirs is a no-op.
-/

deriving instance DecidableEq for Except

namespace Replication

/-- A byte value. -/
abbrev Byte := Nat

/-- Flags of block_meta: META_FLAG_EMPTY = 0, META_FLAG_DATAIN = 1,
META_FLAG_REF_LOG = 2.  The zero-fill entries that write_block_meta creates
use Python False, which compares equal to 0, so they are EMPTY here. -/
def META_FLAG_EMPTY : Nat := 0

def META_FLAG_DATAIN : Nat := 1

def META_FLAG_REF_LOG : Nat := 2

/-- block_meta: per-block record (flag, version, size). -/
structure block_meta where
  flag : Nat
  version : Nat
  size : Nat
deriving DecidableEq, Repr

/-- block_meta.is_empty. -/
def block_meta.is_empty (b : block_meta) : Bool :=
  b.flag == META_FLAG_EMPTY

/-- The record produced by block_meta.make_empty, and also the zero-fill
record block_meta(False, 0, 0). -/
def emptyBlockMeta : block_meta :=
  ⟨META_FLAG_EMPTY, 0, 0⟩

/-- undo_block_log: block_id, displaced data (None when the displaced slot
had size 0), displaced version and size. -/
structure undo_block_log where
  id : Nat
  data : Option (List Byte)
  version : Nat
  size : Nat
deriving DecidableEq, Repr

/-- Contents of a backend file: raw data bytes, or the pickled blob of a
metadata sidecar, or the pickled blob of an undo log.  The event-log list
of the undo blob holds the sizes of undo_size_log records, the only event
type the source ever creates. -/
inductive FileData where
  | raw (bytes : List Byte)
  | metaBlob (blocks : List block_meta)
  | undoBlob (blockLogs : List undo_block_log) (eventSizes : List Nat)
deriving DecidableEq, Repr

/-- Backend filesystem state: an association list from path to contents. -/
structure FS where
  files : List (String × FileData)
deriving DecidableEq, Repr

namespace FS

/-- Look a path up. -/
def lookup (fs : FS) (p : String) : Option FileData :=
  match fs.files.find? (fun e => e.1 == p) with
  | some e => some e.2
  | none => none

/-- exists(p). -/
def pathExists (fs : FS) (p : String) : Bool :=
  (fs.lookup p).isSome

/-- Create or replace the entry at a path. -/
def set (fs : FS) (p : String) (d : FileData) : FS :=
  if fs.pathExists p then
    ⟨fs.files.map (fun e => if e.1 == p then (p, d) else e)⟩
  else
    ⟨fs.files ++ [(p, d)]⟩

/-- Remove the entry at a path, if any.  Helper shared by unlink (which
fails on a missing path) and rename (whose destination removal is the
silent replacement that os.rename performs). -/
def erase (fs : FS) (p : String) : FS :=
  ⟨fs.files.filter (fun e => e.1 != p)⟩

/-- unlink(p): os.unlink raises OSError when the path is absent. -/
def unlink (fs : FS) (p : String) : Option FS :=
  if fs.pathExists p then some (fs.erase p) else none

/-- rename(a, b): os.rename raises OSError when the source is absent and
silently replaces an existing destination. -/
def rename (fs : FS) (a b : String) : Option FS :=
  match fs.lookup a with
  | some d => some (((fs.erase a).erase b).set b d)
  | none => none

/-- stat(p).size.  The serialized length of a pickled blob is not
modelled; the engine never reads the stat size of a blob other than to
slurp the whole file at open, which the model performs directly. -/
def statSize (fs : FS) (p : String) : Option Nat :=
  match fs.lookup p with
  | some (.raw bs) => some bs.length
  | some _ => some 0
  | none => none

/-- read(p, off, n): seek and read; short or empty result past the end. -/
def readBytes (fs : FS) (p : String) (off n : Nat) : List Byte :=
  match fs.lookup p with
  | some (.raw bs) => (bs.drop off).take n
  | _ => []

/-- write(p, off, buf): O_CREAT, seek, write; gaps are zero-filled. -/
def writeBytes (fs : FS) (p : String) (off : Nat) (buf : List Byte) : FS :=
  let cur := match fs.lookup p with
    | some (.raw bs) => bs
    | _ => []
  let padded := cur ++ List.replicate (off - cur.length) 0
  fs.set p (.raw (padded.take off ++ buf ++ padded.drop (off + buf.length)))

/-- truncate(p, size): O_CREAT, ftruncate; shrinks or zero-extends. -/
def truncateFile (fs : FS) (p : String) (size : Nat) : FS :=
  let cur := match fs.lookup p with
    | some (.raw bs) => bs
    | _ => []
  fs.set p (.raw (cur.take size ++ List.replicate (size - cur.length) 0))

end FS

/-- undo_log.make_log_path. -/
def make_log_path (p : String) : String := p ++ ".undo"

/-- meta_file.make_meta_path. -/
def make_meta_path (p : String) : String := p ++ ".meta"

/-- replica.make_incomplete_path. -/
def make_incomplete_path (p : String) : String := p ++ ".part"

/-- In-memory undo_log object. -/
structure undo_log where
  data_path : String
  log_path : String
  block_logs : List undo_block_log
  event_logs : List Nat
  synced : Bool
  file_exist : Bool
deriving DecidableEq, Repr

namespace undo_log

/-- undo_log constructor: reads the log file if it exists. -/
def openLog (fs : FS) (path : String) : undo_log :=
  let lp := make_log_path path
  match fs.lookup lp with
  | some (.undoBlob bls els) => ⟨path, lp, bls, els, true, true⟩
  | some _ => ⟨path, lp, [], [], true, true⟩
  | none => ⟨path, lp, [], [], true, false⟩

/-- undo_log.clear.  The unlink runs first and raises OSError when the
log file is absent with a stale file_exist flag; on success the in-memory
vectors are dropped.  Note: the source does not reset file_exist. -/
def clear (l : undo_log) (fs : FS) : Except String (undo_log × FS) :=
  if l.file_exist then
    match fs.unlink l.log_path with
    | some fs =>
      .ok ({ l with block_logs := [], event_logs := [], synced := true }, fs)
    | none => .error "OSError: unlink: no such file or directory"
  else
    .ok ({ l with block_logs := [], event_logs := [], synced := true }, fs)

/-- undo_log.sync. -/
def sync (l : undo_log) (fs : FS) : undo_log × FS :=
  if l.synced then (l, fs)
  else ({ l with synced := true, file_exist := true },
        fs.set l.log_path (.undoBlob l.block_logs l.event_logs))

/-- undo_log.write_block_log. -/
def write_block_log (l : undo_log) (bl : undo_block_log) (sync_now : Bool)
    (fs : FS) : undo_log × FS :=
  let l := { l with block_logs := l.block_logs ++ [bl], synced := false }
  if sync_now then l.sync fs else (l, fs)

/-- undo_log.write_event_log, specialised to undo_size_log events. -/
def write_event_log (l : undo_log) (size : Nat) (sync_now : Bool)
    (fs : FS) : undo_log × FS :=
  let l := { l with event_logs := l.event_logs ++ [size], synced := false }
  if sync_now then l.sync fs else (l, fs)

/-- undo_log.rename: checks destination absence, then moves the file;
the os.rename raises OSError when the log file is absent with a stale
file_exist flag, before any in-memory path is updated. -/
def renameLog (l : undo_log) (fs : FS) (new_path : String) :
    Except String (undo_log × FS × Bool) :=
  let nlp := make_log_path new_path
  if fs.pathExists nlp then .ok (l, fs, false)
  else if l.file_exist then
    match fs.rename l.log_path nlp with
    | some fs =>
      .ok ({ l with data_path := new_path, log_path := nlp }, fs, true)
    | none => .error "OSError: rename: no such file or directory"
  else
    .ok ({ l with data_path := new_path, log_path := nlp }, fs, true)

end undo_log

/-- In-memory meta_file object. -/
structure meta_file where
  data_path : String
  meta_path : String
  blocks : List block_meta
  synced : Bool
  file_exist : Bool
deriving DecidableEq, Repr

/-- compact_block_meta scans backward from the tail and stops at the first
slot that is not EMPTY: the cut position is one past the largest non-EMPTY
index, 0 when every slot is EMPTY. -/
def cutBlocksTo (bs : List block_meta) : Nat :=
  (bs.reverse.dropWhile (fun b => b.is_empty)).length

namespace meta_file

/-- meta_file constructor: reads the sidecar if it exists. -/
def openMeta (fs : FS) (path : String) : meta_file :=
  let mp := make_meta_path path
  match fs.lookup mp with
  | some (.metaBlob bs) => ⟨path, mp, bs, true, true⟩
  | some _ => ⟨path, mp, [], true, true⟩
  | none => ⟨path, mp, [], true, false⟩

/-- meta_file.clear.  The unlink runs first and raises OSError when the
sidecar is absent with a stale file_exist flag.  Note: the source does
not reset file_exist. -/
def clear (m : meta_file) (fs : FS) : Except String (meta_file × FS) :=
  if m.file_exist then
    match fs.unlink m.meta_path with
    | some fs => .ok ({ m with blocks := [], synced := true }, fs)
    | none => .error "OSError: unlink: no such file or directory"
  else
    .ok ({ m with blocks := [], synced := true }, fs)

/-- meta_file.sync. -/
def sync (m : meta_file) (fs : FS) : meta_file × FS :=
  if m.synced then (m, fs)
  else ({ m with synced := true, file_exist := true },
        fs.set m.meta_path (.metaBlob m.blocks))

/-- In-memory part of compact_block_meta. -/
def compact_blocks (m : meta_file) : meta_file :=
  { m with blocks := m.blocks.take (cutBlocksTo m.blocks), synced := false }

/-- meta_file.compact_block_meta. -/
def compact_block_meta (m : meta_file) (sync_now : Bool) (fs : FS) :
    meta_file × FS :=
  let m := m.compact_blocks
  if sync_now then m.sync fs else (m, fs)

/-- In-memory part of write_block_meta: overwrite in range, else zero-fill
with EMPTY records up to block_id, then set; always compact afterwards. -/
def write_block_meta_pure (m : meta_file) (block_id : Nat)
    (bm : block_meta) : meta_file :=
  let blocks :=
    if block_id < m.blocks.length then m.blocks.set block_id bm
    else
      ((m.blocks ++
        List.replicate (block_id + 1 - m.blocks.length) emptyBlockMeta).set
        block_id bm)
  ({ m with blocks := blocks, synced := false }).compact_blocks

/-- meta_file.write_block_meta. -/
def write_block_meta (m : meta_file) (block_id : Nat) (bm : block_meta)
    (sync_now : Bool) (fs : FS) : meta_file × FS :=
  let m := m.write_block_meta_pure block_id bm
  if sync_now then m.sync fs else (m, fs)

/-- In-memory part of delete_block_meta: make the slot EMPTY when in
range, then compact. -/
def delete_block_meta_pure (m : meta_file) (block_id : Nat) : meta_file :=
  let m :=
    if block_id < m.blocks.length then
      { m with blocks := m.blocks.set block_id emptyBlockMeta,
               synced := false }
    else m
  m.compact_blocks

/-- meta_file.delete_block_meta. -/
def delete_block_meta (m : meta_file) (block_id : Nat) (sync_now : Bool)
    (fs : FS) : meta_file × FS :=
  let m := m.delete_block_meta_pure block_id
  if sync_now then m.sync fs else (m, fs)

/-- meta_file.get_block_meta_len. -/
def get_block_meta_len (m : meta_file) : Nat := m.blocks.length

/-- meta_file.read_block_meta: EMPTY with version 0 and size 0 when the
id is beyond the current length. -/
def read_block_meta (m : meta_file) (block_id : Nat) : block_meta :=
  if block_id < m.blocks.length then m.blocks.getD block_id emptyBlockMeta
  else emptyBlockMeta

/-- meta_file.get_data_file_size: the sum of all slot sizes. -/
def get_data_file_size (m : meta_file) : Nat :=
  m.blocks.foldl (fun acc b => acc + b.size) 0

/-- meta_file.rename: checks destination absence, then moves the file;
the os.rename raises OSError when the sidecar is absent with a stale
file_exist flag, before any in-memory path is updated. -/
def renameMeta (m : meta_file) (fs : FS) (new_path : String) :
    Except String (meta_file × FS × Bool) :=
  let nmp := make_meta_path new_path
  if fs.pathExists nmp then .ok (m, fs, false)
  else if m.file_exist then
    match fs.rename m.meta_path nmp with
    | some fs =>
      .ok ({ m with data_path := new_path, meta_path := nmp }, fs, true)
    | none => .error "OSError: rename: no such file or directory"
  else
    .ok ({ m with data_path := new_path, meta_path := nmp }, fs, true)

end meta_file

/-- data_block as used for write requests: id, version, data bytes. -/
structure data_block where
  id : Nat
  version : Nat
  data : List Byte
deriving DecidableEq, Repr

/-- Read and delete requests pass data_block objects whose data field is
None and never inspected; only id and version matter. -/
structure block_req where
  id : Nat
  version : Nat
deriving DecidableEq, Repr

/-- Result of read_data_blocks: data is None for a hole. -/
structure r_data_block where
  id : Nat
  version : Nat
  data : Option (List Byte)
deriving DecidableEq, Repr

/-- In-memory replica object. -/
structure replica where
  data_path : String
  incomplete_path : String
  block_size : Nat
  log : undo_log
  meta : meta_file
  transaction : Bool
  file_exist : Bool
deriving DecidableEq, Repr

namespace replica

/-- replica constructor: reads log and meta, then derives transaction and
file_exist from which of P and P.part exists. -/
def openReplica (fs : FS) (path : String) (block_size : Nat) : replica :=
  let log := undo_log.openLog fs path
  let meta := meta_file.openMeta fs path
  let ip := make_incomplete_path path
  if fs.pathExists path then
    ⟨path, ip, block_size, log, meta, false, true⟩
  else if fs.pathExists ip then
    ⟨path, ip, block_size, log, meta, true, true⟩
  else
    ⟨path, ip, block_size, log, meta, false, false⟩

/-- replica._read_data_blocks: read each (id, size) slot from the .part
file; None when the recorded size is 0. -/
def read_raw_blocks (r : replica) (fs : FS) (id_size_arr : List (Nat × Nat)) :
    List (Option (List Byte)) :=
  id_size_arr.map (fun is =>
    if 0 < is.2 then
      some (fs.readBytes r.incomplete_path (is.1 * r.block_size) is.2)
    else none)

/-- replica._write_data_blocks: write each non-empty block to the .part
file at id * block_size, marking file_exist. -/
def write_raw_blocks (r : replica) (fs : FS) (dbs : List data_block) :
    replica × FS :=
  dbs.foldl (fun rf db =>
    if 0 < db.data.length then
      ({ rf.1 with file_exist := true },
       rf.2.writeBytes rf.1.incomplete_path (db.id * rf.1.block_size) db.data)
    else rf) (r, fs)

/-- replica.begin_transaction. -/
def begin_transaction (r : replica) (fs : FS) :
    Except String (replica × FS) :=
  if r.transaction then .error "already in transaction"
  else
    let resolve : Except String (Nat × FS) :=
      if r.file_exist then
        match fs.statSize r.data_path with
        | some sz =>
          match fs.rename r.data_path r.incomplete_path with
          | some fs => .ok (sz, fs)
          | none => .error "OSError: rename: no such file or directory"
        | none => .error "stat: no such file"
      else .ok (0, fs)
    match resolve with
    | .error e => .error e
    | .ok (file_size, fs) =>
      match r.log.clear fs with
      | .error e => .error e
      | .ok (log, fs) =>
        let (log, fs) := log.write_event_log file_size false fs
        .ok ({ r with log := log, transaction := true }, fs)

/-- replica.commit. -/
def commit (r : replica) (fs : FS) : Except String (replica × FS) :=
  if !r.transaction then .error "not in transaction"
  else
    match r.log.clear fs with
    | .error e => .error e
    | .ok (log, fs) =>
      let (meta, fs) := r.meta.sync fs
      let file_size := meta.get_data_file_size
      if 0 < file_size then
        let fs := fs.truncateFile r.incomplete_path file_size
        match fs.rename r.incomplete_path r.data_path with
        | some fs =>
          .ok ({ r with log := log, meta := meta, file_exist := true,
                        transaction := false }, fs)
        | none => .error "OSError: rename: no such file or directory"
      else if r.file_exist then
        match fs.unlink r.incomplete_path with
        | some fs =>
          match meta.clear fs with
          | .error e => .error e
          | .ok (meta, fs) =>
            .ok ({ r with log := log, meta := meta, file_exist := false,
                          transaction := false }, fs)
        | none => .error "OSError: unlink: no such file or directory"
      else
        .ok ({ r with log := log, meta := meta, transaction := false }, fs)

/-- replica.rollback.  Step 1 evaluates block_log.data[:block_log.size],
which raises TypeError when the logged data is None; the model surfaces
that as an error. -/
def rollback (r : replica) (fs : FS) : Except String (replica × FS) :=
  if !r.transaction then .error "not in transaction"
  else
    let restore : Except String (List data_block × meta_file) :=
      r.log.block_logs.foldlM (fun acc bl =>
        match bl.data with
        | none => .error "TypeError: NoneType object is not subscriptable"
        | some d =>
          let dblock : data_block := ⟨bl.id, bl.version, d.take bl.size⟩
          let flag := if d.length > 0 then META_FLAG_DATAIN
                      else META_FLAG_EMPTY
          let m := acc.2.write_block_meta_pure bl.id ⟨flag, bl.version, bl.size⟩
          .ok (acc.1 ++ [dblock], m)) ([], r.meta)
    match restore with
    | .error e => .error e
    | .ok (data_blocks, meta) =>
      let r := { r with meta := meta }
      let (r, fs) :=
        if 0 < data_blocks.length then r.write_raw_blocks fs data_blocks
        else (r, fs)
      let new_file_size := r.log.event_logs.foldl (fun _ s => s) 0
      let step : Except String (replica × FS) :=
        if r.file_exist then
          if 0 < new_file_size then
            .ok (r, fs.truncateFile r.incomplete_path new_file_size)
          else
            match fs.unlink r.incomplete_path with
            | some fs =>
              match r.meta.clear fs with
              | .error e => .error e
              | .ok (meta, fs) =>
                .ok ({ r with meta := meta, file_exist := false }, fs)
            | none => .error "OSError: unlink: no such file or directory"
        else .ok (r, fs)
      match step with
      | .error e => .error e
      | .ok (r, fs) =>
        let (meta, fs) := r.meta.sync fs
        match r.log.clear fs with
        | .error e => .error e
        | .ok (log, fs) =>
          if r.file_exist then
            match fs.rename r.incomplete_path r.data_path with
            | some fs =>
              .ok ({ r with meta := meta, log := log,
                            transaction := false }, fs)
            | none => .error "OSError: rename: no such file or directory"
          else
            .ok ({ r with meta := meta, log := log,
                          transaction := false }, fs)

/-- One iteration of step 2 of write_data_blocks: append the undo
block log for the displaced block and set its meta record to REF_LOG,
both without syncing. -/
def undo_step (lm : undo_log × meta_file)
    (x : data_block × block_meta × Option (List Byte)) :
    undo_log × meta_file :=
  let db := x.1
  let bm := x.2.1
  let old := x.2.2
  ({ lm.1 with
      block_logs := lm.1.block_logs ++ [⟨db.id, old, bm.version, bm.size⟩],
      synced := false },
   lm.2.write_block_meta_pure db.id ⟨META_FLAG_REF_LOG, bm.version, bm.size⟩)

/-- replica.write_data_blocks. -/
def write_data_blocks (r : replica) (fs : FS) (dbs : List data_block) :
    Except String (replica × FS) :=
  if !r.transaction then .error "not in transaction"
  else
    let (r, fs) :=
      if r.file_exist then
        let bmeta_arr := dbs.map (fun db => r.meta.read_block_meta db.id)
        let id_size_arr :=
          dbs.map (fun db => (db.id, (r.meta.read_block_meta db.id).size))
        let old_dblocks := r.read_raw_blocks fs id_size_arr
        let step2 := (dbs.zip (bmeta_arr.zip old_dblocks)).foldl
          undo_step (r.log, r.meta)
        let (log, fs) := step2.1.sync fs
        let (meta, fs) := step2.2.sync fs
        ({ r with log := log, meta := meta }, fs)
      else
        (r, fs)
    let (r, fs) :=
      if 0 < dbs.length then r.write_raw_blocks fs dbs else (r, fs)
    let meta := dbs.foldl (fun m db =>
      m.write_block_meta_pure db.id
        ⟨META_FLAG_DATAIN, db.version, db.data.length⟩) r.meta
    let (meta, fs) := meta.sync fs
    .ok ({ r with meta := meta }, fs)

/-- replica.fix_consistency.  In the committed branch the source calls
truncate(data_path, st.size), i.e. truncates the file to its own current
size. -/
def fix_consistency (r : replica) (fs : FS) : Except String (replica × FS) :=
  let step : Except String (replica × FS) :=
    if r.file_exist then
      if r.transaction then r.rollback fs
      else
        let (meta, fs) := r.meta.compact_block_meta true fs
        let expected_file_size := meta.get_data_file_size
        match fs.statSize r.data_path with
        | some stsize =>
          let fs := if expected_file_size ≠ stsize then
              fs.truncateFile r.data_path stsize
            else fs
          .ok ({ r with meta := meta }, fs)
        | none => .error "stat: no such file"
    else .ok (r, fs)
  match step with
  | .error e => .error e
  | .ok (r, fs) =>
    match r.log.clear fs with
    | .error e => .error e
    | .ok (log, fs) => .ok ({ r with log := log }, fs)

/-- replica.rename.  The boolean results of meta.rename and log.rename
are ignored, as in the source; any OSError raised by the underlying
renames propagates. -/
def rename (r : replica) (fs : FS) (new_path : String) :
    Except String (replica × FS × Bool) :=
  if r.transaction then .error "in transaction"
  else if fs.pathExists new_path then .ok (r, fs, false)
  else
    let moved : Except String FS :=
      if r.file_exist then
        match fs.rename r.data_path new_path with
        | some fs => .ok fs
        | none => .error "OSError: rename: no such file or directory"
      else .ok fs
    match moved with
    | .error e => .error e
    | .ok fs =>
      match r.meta.renameMeta fs new_path with
      | .error e => .error e
      | .ok (meta, fs, _) =>
        match r.log.renameLog fs new_path with
        | .error e => .error e
        | .ok (log, fs, _) =>
          .ok ({ r with data_path := new_path,
                        incomplete_path := make_incomplete_path new_path,
                        meta := meta, log := log }, fs, true)

/-- replica.get_data_file_size. -/
def get_data_file_size (r : replica) : Except String Nat :=
  if r.transaction then .error "in transaction"
  else .ok r.meta.get_data_file_size

/-- replica.get_data_block_len. -/
def get_data_block_len (r : replica) : Except String Nat :=
  if r.transaction then .error "in transaction"
  else .ok r.meta.get_block_meta_len

/-- Body of the read_data_blocks loop for one request: None by default,
bytes only when the version matches, the file exists and the recorded
size is positive. -/
def read_one_block (r : replica) (fs : FS) (req : block_req) : r_data_block :=
  let bmeta := r.meta.read_block_meta req.id
  if bmeta.version = req.version then
    if r.file_exist then
      if 0 < bmeta.size then
        ⟨req.id, req.version,
         some (fs.readBytes r.data_path (req.id * r.block_size) bmeta.size)⟩
      else ⟨req.id, req.version, none⟩
    else ⟨req.id, req.version, none⟩
  else ⟨req.id, req.version, none⟩

/-- replica.read_data_blocks. -/
def read_data_blocks (r : replica) (fs : FS) (reqs : List block_req) :
    Except String (List r_data_block) :=
  if r.transaction then .error "in transaction"
  else .ok (reqs.map (r.read_one_block fs))

/-- replica.delete_data_blocks. -/
def delete_data_blocks (r : replica) (fs : FS) (reqs : List block_req) :
    Except String (replica × FS) :=
  if !r.transaction then .error "not in transaction"
  else if r.file_exist then
    let meta := reqs.foldl (fun m req =>
      let bmeta := m.read_block_meta req.id
      if bmeta.version = req.version then
        m.write_block_meta_pure req.id emptyBlockMeta
      else m) r.meta
    let (meta, fs) := meta.sync fs
    .ok ({ r with meta := meta }, fs)
  else .ok (r, fs)

end replica

/-! Concrete scenarios used by the claim theorems, with extraction helpers
for the intermediate states of successful runs. -/

/-- Extract the payload of a computation known to succeed; the dummy value
is only reached on error. -/
def exOk (e : Except String (replica × FS)) : replica × FS :=
  match e with
  | .ok p => p
  | .error _ => (replica.openReplica ⟨[]⟩ "" 0, ⟨[]⟩)

/-- C1 scenario: a committed replica holding one 4-byte block. -/
def fsC1 : FS :=
  ⟨[("/f", .raw [65, 65, 65, 65]), ("/f.meta", .metaBlob [⟨1, 1, 4⟩])]⟩

def rC1 : replica := replica.openReplica fsC1 "/f" 4

def rC1tx : replica := (exOk (rC1.begin_transaction fsC1)).1

def fsC1tx : FS := (exOk (rC1.begin_transaction fsC1)).2

/-- The replica reopened after a crash right after begin_transaction. -/
def rC1re : replica := replica.openReplica fsC1tx "/f" 4

def rC1rec : replica := (exOk (rC1re.fix_consistency fsC1tx)).1

def fsC1rec : FS := (exOk (rC1re.fix_consistency fsC1tx)).2

/-- C2 scenario: a committed state whose data file is 10 bytes long while
the metadata records a total size of 4. -/
def fsC2 : FS :=
  ⟨[("/g", .raw [0, 1, 2, 3, 4, 5, 6, 7, 8, 9]),
    ("/g.meta", .metaBlob [⟨1, 1, 4⟩])]⟩

def rC2 : replica := replica.openReplica fsC2 "/g" 4

def rC2fix : replica := (exOk (rC2.fix_consistency fsC2)).1

def fsC2fix : FS := (exOk (rC2.fix_consistency fsC2)).2

/-- C3 scenario: a committed one-block replica; the transaction then
writes to block id 1, whose displaced slot is absent (size 0). -/
def fsC3 : FS :=
  ⟨[("/h", .raw [65, 65, 65, 65]), ("/h.meta", .metaBlob [⟨1, 1, 4⟩])]⟩

def rC3 : replica := replica.openReplica fsC3 "/h" 4

def rC3tx : replica := (exOk (rC3.begin_transaction fsC3)).1

def fsC3tx : FS := (exOk (rC3.begin_transaction fsC3)).2

def rC3w : replica :=
  (exOk (rC3tx.write_data_blocks fsC3tx [⟨1, 2, [66, 66]⟩])).1

def fsC3w : FS :=
  (exOk (rC3tx.write_data_blocks fsC3tx [⟨1, 2, [66, 66]⟩])).2

/-- C4 scenario: a fresh replica; one transaction writes block 0 (4 bytes)
and block 3 (1 byte), leaving blocks 1 and 2 as interior holes. -/
def fsC4 : FS := ⟨[]⟩

def rC4 : replica := replica.openReplica fsC4 "/k" 4

def rC4tx : replica := (exOk (rC4.begin_transaction fsC4)).1

def fsC4tx : FS := (exOk (rC4.begin_transaction fsC4)).2

def writesC4 : List data_block := [⟨0, 1, [65, 65, 65, 65]⟩, ⟨3, 1, [68]⟩]

def rC4w : replica := (exOk (rC4tx.write_data_blocks fsC4tx writesC4)).1

def fsC4w : FS := (exOk (rC4tx.write_data_blocks fsC4tx writesC4)).2

def rC4c : replica := (exOk (rC4w.commit fsC4w)).1

def fsC4c : FS := (exOk (rC4w.commit fsC4w)).2

/-- C5 scenario: a committed replica at /a; the rename destination /b is
absent but /b.meta already exists. -/
def fsC5 : FS :=
  ⟨[("/a", .raw [1]), ("/a.meta", .metaBlob [⟨1, 1, 1⟩]),
    ("/b.meta", .metaBlob [])]⟩

def rC5 : replica := replica.openReplica fsC5 "/a" 4

def exOk3 (e : Except String (replica × FS × Bool)) : replica × FS × Bool :=
  match e with
  | .ok p => p
  | .error _ => (replica.openReplica ⟨[]⟩ "" 0, ⟨[]⟩, false)

def rC5out : replica := (exOk3 (rC5.rename fsC5 "/b")).1

def fsC5out : FS := (exOk3 (rC5.rename fsC5 "/b")).2.1

/-- C7 scenario: a committed replica holding one block; begin_transaction
is called and then one write_data_blocks. -/
def fsC7 : FS :=
  ⟨[("/p", .raw [1, 2, 3, 4]), ("/p.meta", .metaBlob [⟨1, 1, 4⟩])]⟩

def rC7 : replica := replica.openReplica fsC7 "/p" 4

def rC7tx : replica := (exOk (rC7.begin_transaction fsC7)).1

def fsC7tx : FS := (exOk (rC7.begin_transaction fsC7)).2

/-- C6 and C9 witness scenario: a committed replica with one stored block
of version 5 and size 4. -/
def fsW6 : FS :=
  ⟨[("/w", .raw [9, 8, 7, 6]), ("/w.meta", .metaBlob [⟨1, 5, 4⟩])]⟩

def rW6 : replica := replica.openReplica fsW6 "/w" 4

/-- C10 witness scenario: a fresh replica inside a transaction, holding no
data file. -/
def rW10 : replica :=
  (exOk ((replica.openReplica ⟨[]⟩ "/n" 4).begin_transaction ⟨[]⟩)).1

def fsW10 : FS :=
  (exOk ((replica.openReplica ⟨[]⟩ "/n" 4).begin_transaction ⟨[]⟩)).2

/-- C8 witness scenario. -/
def mW8 : meta_file := ⟨"/m", "/m.meta", [], true, false⟩

def bsW8 : List block_meta := [⟨1, 1, 4⟩, ⟨0, 0, 0⟩]

/-! Theorems.  First, lemmas about the backend filesystem model. -/

theorem find?_map_set (p : String) (d : FileData) :
    ∀ files : List (String × FileData),
      (files.find? (fun e => e.1 == p)).isSome = true →
      (files.map (fun e => if e.1 == p then (p, d) else e)).find?
        (fun e => e.1 == p) = some (p, d) := by
  intro files
  induction files with
  | nil => intro h; simp [List.find?] at h
  | cons e es ih =>
    intro h
    by_cases he : (e.1 == p) = true
    · have hep : e.1 = p := by simpa using he
      simp [List.map_cons, List.find?_cons, hep]
    · have he' : (e.1 == p) = false := by
        cases hx : (e.1 == p) <;> simp_all
      simp only [List.map_cons, he', if_false, Bool.false_eq_true]
      rw [List.find?_cons] at h
      simp only [he'] at h
      simp only [List.find?_cons, he']
      exact ih h

theorem find?_map_set_ne (p q : String) (d : FileData) (hqp : q ≠ p) :
    ∀ files : List (String × FileData),
      (files.map (fun e => if e.1 == p then (p, d) else e)).find?
        (fun e => e.1 == q) = files.find? (fun e => e.1 == q) := by
  intro files
  induction files with
  | nil => rfl
  | cons e es ih =>
    by_cases he : (e.1 == p) = true
    · have hep : e.1 = p := by simpa using he
      have h1 : ((p, d).1 == q) = false := by simp [Ne.symm hqp]
      have h2 : (e.1 == q) = false := by simp [hep, Ne.symm hqp]
      simp only [List.map_cons, he, if_true]
      simp only [List.find?_cons, h1, h2]
      exact ih
    · have he' : (e.1 == p) = false := by
        cases hx : (e.1 == p) <;> simp_all
      simp only [List.map_cons, he', if_false, Bool.false_eq_true]
      simp only [List.find?_cons]
      cases hq : (e.1 == q)
      · exact ih
      · rfl

theorem find?_filter_self (p : String) :
    ∀ files : List (String × FileData),
      (files.filter (fun e => e.1 != p)).find? (fun e => e.1 == p) = none := by
  intro files
  induction files with
  | nil => rfl
  | cons e es ih =>
    by_cases he : (e.1 == p) = true
    · simp only [List.filter_cons, bne, he, Bool.not_true, if_false,
        Bool.false_eq_true]
      exact ih
    · have he' : (e.1 == p) = false := by
        cases hx : (e.1 == p) <;> simp_all
      simp only [List.filter_cons, bne, he', Bool.not_false, if_true]
      simp only [List.find?_cons, he']
      exact ih

theorem find?_filter_ne (p q : String) (hqp : q ≠ p) :
    ∀ files : List (String × FileData),
      (files.filter (fun e => e.1 != p)).find? (fun e => e.1 == q) =
        files.find? (fun e => e.1 == q) := by
  intro files
  induction files with
  | nil => rfl
  | cons e es ih =>
    by_cases he : (e.1 == p) = true
    · have hep : e.1 = p := by simpa using he
      have h2 : (e.1 == q) = false := by simp [hep, Ne.symm hqp]
      simp only [List.filter_cons, bne, he, Bool.not_true, if_false,
        Bool.false_eq_true]
      simp only [List.find?_cons, h2]
      exact ih
    · have he' : (e.1 == p) = false := by
        cases hx : (e.1 == p) <;> simp_all
      simp only [List.filter_cons, bne, he', Bool.not_false, if_true]
      simp only [List.find?_cons]
      cases hq : (e.1 == q)
      · exact ih
      · rfl

theorem FS.lookup_isSome_find? (fs : FS) (p : String) :
    (fs.lookup p).isSome = (fs.files.find? (fun e => e.1 == p)).isSome := by
  unfold FS.lookup
  cases fs.files.find? (fun e => e.1 == p) <;> rfl

theorem FS.lookup_set_self (fs : FS) (p : String) (d : FileData) :
    (fs.set p d).lookup p = some d := by
  unfold FS.set FS.pathExists
  by_cases h : (fs.lookup p).isSome = true
  · rw [if_pos h]
    show FS.lookup ⟨_⟩ p = some d
    unfold FS.lookup
    rw [find?_map_set p d fs.files ((FS.lookup_isSome_find? fs p) ▸ h)]
  · rw [if_neg h]
    show FS.lookup ⟨_⟩ p = some d
    unfold FS.lookup
    have hn : fs.files.find? (fun e => e.1 == p) = none := by
      have := FS.lookup_isSome_find? fs p
      cases hf : fs.files.find? (fun e => e.1 == p)
      · rfl
      · rw [hf] at this
        simp at this
        exact absurd (this ▸ rfl : (fs.lookup p).isSome = true) h
    rw [List.find?_append, hn]
    simp [List.find?]

theorem FS.lookup_set_ne (fs : FS) (p q : String) (d : FileData)
    (hqp : q ≠ p) : (fs.set p d).lookup q = fs.lookup q := by
  unfold FS.set FS.pathExists
  by_cases h : (fs.lookup p).isSome = true
  · rw [if_pos h]
    show FS.lookup ⟨_⟩ q = fs.lookup q
    unfold FS.lookup
    rw [find?_map_set_ne p q d hqp fs.files]
  · rw [if_neg h]
    show FS.lookup ⟨_⟩ q = fs.lookup q
    unfold FS.lookup
    rw [List.find?_append]
    have h2 : [(p, d)].find? (fun e => e.1 == q) = none := by
      have : (p == q) = false := by simp [Ne.symm hqp]
      simp [List.find?, this]
    rw [h2]
    cases fs.files.find? (fun e => e.1 == q) <;> rfl

theorem FS.lookup_erase_self (fs : FS) (p : String) :
    (fs.erase p).lookup p = none := by
  unfold FS.erase FS.lookup
  rw [find?_filter_self p fs.files]

theorem FS.lookup_erase_ne (fs : FS) (p q : String) (hqp : q ≠ p) :
    (fs.erase p).lookup q = fs.lookup q := by
  unfold FS.erase FS.lookup
  rw [find?_filter_ne p q hqp fs.files]

theorem FS.rename_eq_of_lookup (fs : FS) (a b : String) (d : FileData)
    (h : fs.lookup a = some d) :
    fs.rename a b = some (((fs.erase a).erase b).set b d) := by
  unfold FS.rename
  rw [h]

theorem FS.unlink_eq_of_pathExists (fs : FS) (p : String)
    (h : fs.pathExists p = true) : fs.unlink p = some (fs.erase p) := by
  unfold FS.unlink
  rw [if_pos h]

theorem FS.unlink_eq_none (fs : FS) (p : String)
    (h : fs.pathExists p = false) : fs.unlink p = none := by
  unfold FS.unlink
  rw [if_neg (by rw [h]; exact Bool.false_ne_true)]

theorem FS.lookup_rename_other (fs fs2 : FS) (a b q : String)
    (h : fs.rename a b = some fs2) (ha : q ≠ a) (hb : q ≠ b) :
    fs2.lookup q = fs.lookup q := by
  unfold FS.rename at h
  cases hl : fs.lookup a with
  | none =>
    rw [hl] at h
    exact absurd h (by simp)
  | some d =>
    rw [hl] at h
    have h2 := Option.some.inj h
    rw [← h2, FS.lookup_set_ne _ _ _ _ hb, FS.lookup_erase_ne _ _ _ hb,
      FS.lookup_erase_ne _ _ _ ha]

theorem FS.pathExists_set_self (fs : FS) (p : String) (d : FileData) :
    (fs.set p d).pathExists p = true := by
  unfold FS.pathExists
  rw [FS.lookup_set_self]
  rfl

theorem FS.pathExists_set_mono (fs : FS) (p q : String) (d : FileData)
    (h : fs.pathExists q = true) : (fs.set p d).pathExists q = true := by
  by_cases hqp : q = p
  · subst hqp
    exact FS.pathExists_set_self fs q d
  · unfold FS.pathExists
    rw [FS.lookup_set_ne _ _ _ _ hqp]
    exact h

theorem FS.pathExists_set_ne (fs : FS) (p q : String) (d : FileData)
    (hqp : q ≠ p) : (fs.set p d).pathExists q = fs.pathExists q := by
  unfold FS.pathExists
  rw [FS.lookup_set_ne _ _ _ _ hqp]

theorem FS.pathExists_writeBytes_mono (fs : FS) (p q : String)
    (off : Nat) (buf : List Byte) (h : fs.pathExists q = true) :
    (fs.writeBytes p off buf).pathExists q = true := by
  unfold FS.writeBytes
  exact FS.pathExists_set_mono _ _ _ _ h

theorem FS.pathExists_truncateFile_mono (fs : FS) (p q : String)
    (size : Nat) (h : fs.pathExists q = true) :
    (fs.truncateFile p size).pathExists q = true := by
  unfold FS.truncateFile
  exact FS.pathExists_set_mono _ _ _ _ h

theorem FS.pathExists_rename_other (fs fs2 : FS) (a b q : String)
    (h : fs.rename a b = some fs2) (ha : q ≠ a) (hb : q ≠ b) :
    fs2.pathExists q = fs.pathExists q := by
  unfold FS.pathExists
  rw [FS.lookup_rename_other _ _ _ _ _ h ha hb]

theorem FS.pathExists_erase_self (fs : FS) (p : String) :
    (fs.erase p).pathExists p = false := by
  unfold FS.pathExists
  rw [FS.lookup_erase_self]
  rfl

theorem FS.pathExists_erase_ne (fs : FS) (p q : String) (hqp : q ≠ p) :
    (fs.erase p).pathExists q = fs.pathExists q := by
  unfold FS.pathExists
  rw [FS.lookup_erase_ne _ _ _ hqp]

theorem meta_file.meta_sync_pathExists_mono (m : meta_file) (fs : FS)
    (q : String) (h : fs.pathExists q = true) :
    ((m.sync fs).2).pathExists q = true := by
  unfold meta_file.sync
  split
  · exact h
  · exact FS.pathExists_set_mono _ _ _ _ h

theorem undo_log.log_sync_pathExists_mono (l : undo_log) (fs : FS)
    (q : String) (h : fs.pathExists q = true) :
    ((l.sync fs).2).pathExists q = true := by
  unfold undo_log.sync
  split
  · exact h
  · exact FS.pathExists_set_mono _ _ _ _ h

theorem undo_log.sync_creates (l : undo_log) (fs : FS)
    (h : l.synced = false) : ((l.sync fs).2).pathExists l.log_path = true := by
  unfold undo_log.sync
  rw [h]
  simp only [Bool.false_eq_true, if_false]
  exact FS.pathExists_set_self _ _ _

theorem replica.pathExists_write_raw_blocks_mono (q : String) :
    ∀ (dbs : List data_block) (r : replica) (fs : FS),
      fs.pathExists q = true →
      ((replica.write_raw_blocks r fs dbs).2).pathExists q = true := by
  intro dbs
  induction dbs with
  | nil => intro r fs h; exact h
  | cons db dbs ih =>
    intro r fs h
    unfold replica.write_raw_blocks
    rw [List.foldl_cons]
    by_cases hd : 0 < db.data.length
    · rw [if_pos hd]
      exact ih _ _ (FS.pathExists_writeBytes_mono _ _ _ _ _ h)
    · rw [if_neg hd]
      exact ih _ _ h

theorem replica.undo_step_foldl_log_path
    (xs : List (data_block × block_meta × Option (List Byte))) :
    ∀ lm : undo_log × meta_file,
      ((xs.foldl replica.undo_step lm).1).log_path = lm.1.log_path := by
  induction xs with
  | nil => intro lm; rfl
  | cons x xs ih =>
    intro lm
    rw [List.foldl_cons]
    rw [ih (replica.undo_step lm x)]
    rfl

theorem replica.undo_step_foldl_synced
    (xs : List (data_block × block_meta × Option (List Byte))) :
    ∀ lm : undo_log × meta_file, lm.1.synced = false →
      ((xs.foldl replica.undo_step lm).1).synced = false := by
  induction xs with
  | nil => intro lm h; exact h
  | cons x xs ih =>
    intro lm h
    rw [List.foldl_cons]
    exact ih (replica.undo_step lm x) rfl

theorem dropWhile_head_false {α : Type} (p : α → Bool) :
    ∀ (l : List α) (a : α) (t : List α), l.dropWhile p = a :: t →
      p a = false := by
  intro l
  induction l with
  | nil => intro a t h; simp [List.dropWhile] at h
  | cons x xs ih =>
    intro a t h
    by_cases hx : p x = true
    · rw [List.dropWhile_cons_of_pos hx] at h
      exact ih a t h
    · have hx' : p x = false := by cases hp : p x <;> simp_all
      rw [List.dropWhile_cons_of_neg hx] at h
      injection h with h1 h2
      subst h1
      exact hx'

theorem blocks_decomp (bs : List block_meta) :
    bs = (bs.reverse.dropWhile (fun b => b.is_empty)).reverse ++
         (bs.reverse.takeWhile (fun b => b.is_empty)).reverse := by
  have h := congrArg List.reverse
    (List.takeWhile_append_dropWhile (fun b => b.is_empty) bs.reverse)
  rw [List.reverse_append, List.reverse_reverse] at h
  exact h.symm

theorem take_cutBlocksTo (bs : List block_meta) :
    bs.take (cutBlocksTo bs) =
      (bs.reverse.dropWhile (fun b => b.is_empty)).reverse := by
  have key : ∀ A B : List block_meta, bs = A ++ B →
      cutBlocksTo bs = A.length → bs.take (cutBlocksTo bs) = A := by
    intro A B hAB hlen
    rw [hlen, hAB]
    exact List.take_left _ _
  exact key _ _ (blocks_decomp bs) (by rw [List.length_reverse]; rfl)

theorem compacted_last (bs : List block_meta) :
    bs.take (cutBlocksTo bs) = [] ∨
    ∃ b, (bs.take (cutBlocksTo bs)).getLast? = some b ∧
      b.is_empty = false := by
  rw [take_cutBlocksTo]
  cases hdw : bs.reverse.dropWhile (fun b => b.is_empty) with
  | nil => left; rfl
  | cons a t =>
    right
    exact ⟨a, by rw [List.getLast?_reverse, List.head?_cons],
      dropWhile_head_false _ _ _ _ hdw⟩

theorem cutBlocksTo_le (bs : List block_meta) :
    cutBlocksTo bs ≤ bs.length := by
  show (bs.reverse.dropWhile (fun b => b.is_empty)).length ≤ bs.length
  have h := (List.dropWhile_sublist
    (l := bs.reverse) (fun b => b.is_empty)).length_le
  rw [List.length_reverse] at h
  exact h

theorem cut_suffix_empty (bs : List block_meta) (j : Nat)
    (h1 : cutBlocksTo bs ≤ j) (h2 : j < bs.length) :
    (bs.getD j emptyBlockMeta).is_empty = true := by
  have key : ∀ A B : List block_meta, bs = A ++ B →
      cutBlocksTo bs = A.length → (∀ x ∈ B, x.is_empty = true) →
      (bs.getD j emptyBlockMeta).is_empty = true := by
    intro A B hAB hlen hB
    have hj : A.length ≤ j := hlen ▸ h1
    have hsum : bs.length = A.length + B.length := by
      rw [hAB, List.length_append]
    have hjB : j - A.length < B.length := by omega
    have hr := List.getD_append_right A B emptyBlockMeta j hj
    rw [hAB, hr, List.getD_eq_getElem B emptyBlockMeta hjB]
    exact hB _ (List.getElem_mem hjB)
  refine key _ _ (blocks_decomp bs) (by rw [List.length_reverse]; rfl) ?_
  intro x hx
  simpa using List.mem_takeWhile_imp (List.mem_reverse.mp hx)

theorem cut_pred_not_empty (bs : List block_meta)
    (h : 0 < cutBlocksTo bs) :
    (bs.getD (cutBlocksTo bs - 1) emptyBlockMeta).is_empty = false := by
  have hle := cutBlocksTo_le bs
  have hlen : (bs.take (cutBlocksTo bs)).length = cutBlocksTo bs := by
    rw [List.length_take]
    omega
  have hne : bs.take (cutBlocksTo bs) ≠ [] := by
    intro hcon
    rw [hcon] at hlen
    simp at hlen
    omega
  rcases compacted_last bs with hnil | ⟨b, hlast, hbe⟩
  · exact absurd hnil hne
  · rw [List.getLast?_eq_getElem?, hlen, List.getElem?_take,
      if_pos (by omega : cutBlocksTo bs - 1 < cutBlocksTo bs)] at hlast
    have hgd : bs.getD (cutBlocksTo bs - 1) emptyBlockMeta = b := by
      rw [List.getD_eq_getElem?_getD, hlast]
      rfl
    rw [hgd]
    exact hbe

/-- C8: write_block_meta and delete_block_meta always end by compacting
the block vector (before any optional sync), so the vector they leave
behind is either empty or ends in a record whose flag differs from EMPTY;
compact_block_meta trims the vector to i + 1 where i is the largest index
holding a non-EMPTY record, cutting to length 0 when every record is
EMPTY. -/
theorem meta_compaction_correct (m : meta_file) (i : Nat) (bm : block_meta)
    (bs : List block_meta) :
    ((m.write_block_meta_pure i bm).blocks = [] ∨
      ∃ b, (m.write_block_meta_pure i bm).blocks.getLast? = some b ∧
        b.is_empty = false) ∧
    ((m.delete_block_meta_pure i).blocks = [] ∨
      ∃ b, (m.delete_block_meta_pure i).blocks.getLast? = some b ∧
        b.is_empty = false) ∧
    m.compact_blocks.blocks = m.blocks.take (cutBlocksTo m.blocks) ∧
    cutBlocksTo bs ≤ bs.length ∧
    (0 < cutBlocksTo bs →
      (bs.getD (cutBlocksTo bs - 1) emptyBlockMeta).is_empty = false) ∧
    (∀ j, cutBlocksTo bs ≤ j → j < bs.length →
      (bs.getD j emptyBlockMeta).is_empty = true) := by
  refine ⟨?_, ?_, rfl, cutBlocksTo_le bs, cut_pred_not_empty bs,
    fun j hj1 hj2 => cut_suffix_empty bs j hj1 hj2⟩
  · unfold meta_file.write_block_meta_pure meta_file.compact_blocks
    exact compacted_last _
  · unfold meta_file.delete_block_meta_pure meta_file.compact_blocks
    split <;> exact compacted_last _

/-- C8 witness. -/
theorem meta_compaction_correct_witness :
    (∃ b, (mW8.write_block_meta_pure 2 ⟨1, 3, 4⟩).blocks.getLast? = some b ∧
      b.is_empty = false) ∧
    (bsW8.getD (cutBlocksTo bsW8 - 1) emptyBlockMeta).is_empty = false := by
  constructor
  · rcases (meta_compaction_correct mW8 2 ⟨1, 3, 4⟩ bsW8).1 with hnil | hex
    · exact absurd hnil (by decide)
    · exact hex
  · exact (meta_compaction_correct mW8 2 ⟨1, 3, 4⟩ bsW8).2.2.2.2.1 (by decide)

theorem replica.read_one_block_id (r : replica) (fs : FS) (req : block_req) :
    (r.read_one_block fs req).id = req.id ∧
      (r.read_one_block fs req).version = req.version := by
  unfold replica.read_one_block
  dsimp only
  split
  · split
    · split <;> exact ⟨rfl, rfl⟩
    · exact ⟨rfl, rfl⟩
  · exact ⟨rfl, rfl⟩

/-- C9: in the COMMITTED state read_data_blocks succeeds on every request
list, returning one result per request in order; the i-th result echoes
the i-th request block id and requested version, and carries an optional
payload.  No id, however large, is an error. -/
theorem read_data_blocks_shape (r : replica) (fs : FS)
    (reqs : List block_req) (htx : r.transaction = false) :
    ∃ res, r.read_data_blocks fs reqs = .ok res ∧
      res.length = reqs.length ∧
      ∀ i, i < reqs.length →
        (res.getD i ⟨0, 0, none⟩).id = (reqs.getD i ⟨0, 0⟩).id ∧
        (res.getD i ⟨0, 0, none⟩).version = (reqs.getD i ⟨0, 0⟩).version := by
  refine ⟨reqs.map (r.read_one_block fs), ?_, by simp, ?_⟩
  · unfold replica.read_data_blocks
    rw [htx]
    rfl
  · intro i hi
    have h1 : reqs[i]? = some (reqs.getD i ⟨0, 0⟩) := by
      rw [List.getElem?_eq_getElem hi]
      rw [List.getD_eq_getElem?_getD, List.getElem?_eq_getElem hi]
      rfl
    rw [List.getD_eq_getElem?_getD, List.getElem?_map, h1]
    exact r.read_one_block_id fs (reqs.getD i ⟨0, 0⟩)

/-- C9 witness. -/
theorem read_data_blocks_shape_witness :
    ∃ res, rW6.read_data_blocks fsW6 [⟨0, 1⟩, ⟨9, 0⟩] = .ok res ∧
      res.length = [(⟨0, 1⟩ : block_req), ⟨9, 0⟩].length ∧
      ∀ i, i < [(⟨0, 1⟩ : block_req), ⟨9, 0⟩].length →
        (res.getD i ⟨0, 0, none⟩).id =
          ([(⟨0, 1⟩ : block_req), ⟨9, 0⟩].getD i ⟨0, 0⟩).id ∧
        (res.getD i ⟨0, 0, none⟩).version =
          ([(⟨0, 1⟩ : block_req), ⟨9, 0⟩].getD i ⟨0, 0⟩).version :=
  read_data_blocks_shape rW6 fsW6 [⟨0, 1⟩, ⟨9, 0⟩] (by decide)

/-- C6: outside a transaction, a read request whose version differs from
the stored version of the slot returns a hole (data = None), whatever the
stored content; a request matching the stored version of a slot of
positive size on an existing data file returns the stored bytes of the
slot.  Neither case is an error. -/
theorem read_version_filter (r : replica) (fs : FS) (id v v' : Nat)
    (htx : r.transaction = false) :
    ((r.meta.read_block_meta id).version ≠ v' →
      r.read_data_blocks fs [⟨id, v'⟩] = .ok [⟨id, v', none⟩]) ∧
    ((r.meta.read_block_meta id).version = v →
      0 < (r.meta.read_block_meta id).size → r.file_exist = true →
      r.read_data_blocks fs [⟨id, v⟩] =
        .ok [⟨id, v, some (fs.readBytes r.data_path (id * r.block_size)
          (r.meta.read_block_meta id).size)⟩]) := by
  constructor
  · intro hne
    unfold replica.read_data_blocks
    rw [htx]
    simp only [Bool.false_eq_true, if_false, List.map]
    unfold replica.read_one_block
    rw [if_neg hne]
  · intro hv hsz hfe
    unfold replica.read_data_blocks
    rw [htx]
    simp only [Bool.false_eq_true, if_false, List.map]
    unfold replica.read_one_block
    rw [if_pos hv, hfe, if_pos rfl, if_pos hsz]

/-- C6 witness. -/
theorem read_version_filter_witness :
    rW6.read_data_blocks fsW6 [⟨0, 7⟩] = .ok [⟨0, 7, none⟩] ∧
    rW6.read_data_blocks fsW6 [⟨0, 5⟩] = .ok [⟨0, 5, some [9, 8, 7, 6]⟩] := by
  constructor
  · exact (read_version_filter rW6 fsW6 0 5 7 (by decide)).1 (by decide)
  · exact ((read_version_filter rW6 fsW6 0 5 7 (by decide)).2 (by decide)
      (by decide) (by decide)).trans (by decide)

/-- C10: inside a transaction, when the replica holds no data file,
delete_data_blocks is a complete no-op for every request list: the
replica state and the backend filesystem are returned unchanged and no
error is raised. -/
theorem delete_data_blocks_no_file_noop (r : replica) (fs : FS)
    (reqs : List block_req) (htx : r.transaction = true)
    (hfe : r.file_exist = false) :
    r.delete_data_blocks fs reqs = .ok (r, fs) := by
  unfold replica.delete_data_blocks
  rw [htx, hfe]
  rfl

/-- C10 witness. -/
theorem delete_data_blocks_no_file_noop_witness :
    rW10.delete_data_blocks fsW10 [⟨0, 1⟩, ⟨7, 3⟩] = .ok (rW10, fsW10) :=
  delete_data_blocks_no_file_noop rW10 fsW10 [⟨0, 1⟩, ⟨7, 3⟩]
    (by decide) (by decide)

/-- C1: the crash point right after begin_transaction renamed P to P.part
violates the claim: begin_transaction leaves the undo log unsynced (the
size record is written with sync_now = False), so no undo file exists at
that point; reopening and running fix_consistency then rolls back with an
empty event-log list, takes the new-file-size-0 branch, and unlinks both
the .part file and the metadata sidecar.  The pre-transaction durable
state (data file "/f" with 4 bytes) is destroyed rather than restored. -/
theorem crash_after_begin_loses_state :
    fsC1.lookup "/f" = some (.raw [65, 65, 65, 65]) ∧
    rC1.transaction = false ∧
    rC1.begin_transaction fsC1 = .ok (rC1tx, fsC1tx) ∧
    fsC1tx.pathExists (make_log_path "/f") = false ∧
    rC1re.transaction = true ∧
    rC1re.fix_consistency fsC1tx = .ok (rC1rec, fsC1rec) ∧
    fsC1rec = ⟨[]⟩ ∧
    fsC1rec.pathExists "/f" = false ∧
    fsC1rec.pathExists (make_meta_path "/f") = false := by decide

/-- C2: in the COMMITTED-with-stale-state branch, fix_consistency calls
truncate(P, st.size) — truncating the data file to its own current size —
instead of truncating it down to the metadata sum.  On a committed state
whose data file is 10 bytes long while the metadata sum is 4, the call
succeeds, leaves the backend byte-for-byte unchanged, and afterwards the
stat size still disagrees with replica.get_data_file_size. -/
theorem fix_consistency_size_disagreement :
    rC2.transaction = false ∧
    rC2.fix_consistency fsC2 = .ok (rC2fix, fsC2fix) ∧
    fsC2fix = fsC2 ∧
    fsC2fix.statSize rC2fix.data_path = some 10 ∧
    rC2fix.get_data_file_size = .ok 4 ∧
    fsC2fix.statSize rC2fix.data_path ≠
      some rC2fix.meta.get_data_file_size := by decide

/-- C3: writing to a block whose displaced slot is absent (recorded size
0) logs an undo_block_log with data None; rollback then evaluates
block_log.data[:block_log.size] on None and raises TypeError instead of
completing.  The in-transaction state below is reached by a single
write_data_blocks call on an existing data file. -/
theorem rollback_raises_on_absent_old_block :
    rC3.begin_transaction fsC3 = .ok (rC3tx, fsC3tx) ∧
    rC3tx.write_data_blocks fsC3tx [⟨1, 2, [66, 66]⟩] = .ok (rC3w, fsC3w) ∧
    rC3w.log.block_logs = [⟨1, none, 0, 0⟩] ∧
    rC3w.rollback fsC3w =
      .error "TypeError: NoneType object is not subscriptable" := by decide

/-- C4: a transaction that writes blocks 0 (4 bytes) and 3 (1 byte) at
block_size 4 leaves interior holes at ids 1 and 2; commit truncates the
part file to the metadata sum 5, destroying the byte of block 3 stored
at offset 12, and the subsequent read of (3, 1) returns empty data
instead of the written byte [68]. -/
theorem commit_with_holes_breaks_round_trip :
    rC4.begin_transaction fsC4 = .ok (rC4tx, fsC4tx) ∧
    rC4tx.write_data_blocks fsC4tx writesC4 = .ok (rC4w, fsC4w) ∧
    fsC4w.lookup "/k.part" =
      some (.raw [65, 65, 65, 65, 0, 0, 0, 0, 0, 0, 0, 0, 68]) ∧
    rC4w.commit fsC4w = .ok (rC4c, fsC4c) ∧
    fsC4c.lookup "/k" = some (.raw [65, 65, 65, 65, 0]) ∧
    rC4c.read_data_blocks fsC4c [⟨3, 1⟩] = .ok [⟨3, 1, some []⟩] ∧
    (⟨3, 1, some []⟩ : r_data_block) ≠ ⟨3, 1, some [68]⟩ := by decide

/-- A lookup on an absent path is none. -/
theorem FS.lookup_eq_none_of_absent (fs : FS) (q : String)
    (h : fs.pathExists q = false) : fs.lookup q = none := by
  unfold FS.pathExists at h
  cases hx : fs.lookup q with
  | none => rfl
  | some d => rw [hx] at h; simp at h

/-- Erasing a path never makes another path appear. -/
theorem FS.pathExists_erase_of_false (fs : FS) (p q : String)
    (h : fs.pathExists q = false) : (fs.erase p).pathExists q = false := by
  by_cases hqp : q = p
  · subst hqp
    exact FS.pathExists_erase_self fs q
  · rw [FS.pathExists_erase_ne _ _ _ hqp]
    exact h

/-- os.rename raises when the source path is absent. -/
theorem FS.rename_eq_none (fs : FS) (a b : String)
    (h : fs.lookup a = none) : fs.rename a b = none := by
  unfold FS.rename
  rw [h]

/-- undo_log.clear with a clean file_exist flag leaves the backend
untouched. -/
theorem undo_log.clear_no_flag (l : undo_log) (fs : FS)
    (h : l.file_exist = false) :
    l.clear fs = .ok ({ l with
      block_logs := []
      event_logs := []
      synced := true }, fs) := by
  unfold undo_log.clear
  rw [if_neg (by rw [h]; exact Bool.false_ne_true)]

/-- undo_log.clear raises OSError when file_exist is stale: the flag is
true but the log file is absent (reachable because clear never resets
the flag). -/
theorem undo_log.clear_stale (l : undo_log) (fs : FS)
    (h : l.file_exist = true) (habs : fs.pathExists l.log_path = false) :
    l.clear fs = .error "OSError: unlink: no such file or directory" := by
  unfold undo_log.clear
  rw [if_pos h, FS.unlink_eq_none _ _ habs]

/-- meta_file.rename returns False untouched when the destination meta
path exists. -/
theorem meta_file.renameMeta_dest_present (m : meta_file) (fs : FS)
    (np : String) (h : fs.pathExists (make_meta_path np) = true) :
    m.renameMeta fs np = .ok (m, fs, false) := by
  unfold meta_file.renameMeta
  rw [if_pos h]

/-- undo_log.rename returns False untouched when the destination log
path exists. -/
theorem undo_log.renameLog_dest_present (l : undo_log) (fs : FS)
    (np : String) (h : fs.pathExists (make_log_path np) = true) :
    l.renameLog fs np = .ok (l, fs, false) := by
  unfold undo_log.renameLog
  rw [if_pos h]

/-- undo_log.rename with no log file updates the in-memory paths only. -/
theorem undo_log.renameLog_no_file (l : undo_log) (fs : FS) (np : String)
    (h : fs.pathExists (make_log_path np) = false)
    (hlf : l.file_exist = false) :
    l.renameLog fs np = .ok ({ l with
      data_path := np
      log_path := make_log_path np }, fs, true) := by
  unfold undo_log.renameLog
  rw [if_neg (by rw [h]; exact Bool.false_ne_true),
    if_neg (by rw [hlf]; exact Bool.false_ne_true)]

/-- undo_log.rename raises OSError when file_exist is stale: the flag is
true but the log file is absent, so os.rename runs on a missing
source. -/
theorem undo_log.renameLog_stale (l : undo_log) (fs : FS) (np : String)
    (h : fs.pathExists (make_log_path np) = false)
    (hlf : l.file_exist = true)
    (habs : fs.pathExists l.log_path = false) :
    l.renameLog fs np =
      .error "OSError: rename: no such file or directory" := by
  unfold undo_log.renameLog
  rw [if_neg (by rw [h]; exact Bool.false_ne_true), if_pos hlf,
    FS.rename_eq_none _ _ _ (FS.lookup_eq_none_of_absent _ _ habs)]

/-- C5 counterexample: with the destination data path /b absent but the
destination meta path /b.meta present, replica.rename succeeds (returns
true) instead of failing, renames the data file, and leaves the meta file
unmoved with its in-memory path unchanged — refuting both the failure
condition and the all-three atomicity of the claim. -/
theorem rename_atomicity_counterexample :
    fsC5.pathExists (make_meta_path "/b") = true ∧
    rC5.rename fsC5 "/b" = .ok (rC5out, fsC5out, true) ∧
    fsC5out.pathExists "/a.meta" = true ∧
    fsC5out.pathExists "/a" = false ∧
    fsC5out.pathExists "/b" = true ∧
    rC5out.meta.meta_path = "/a.meta" ∧
    rC5out.data_path = "/b" := by decide

/-- C5 amended: outside a transaction, rename returns False exactly when
the destination data path exists, renaming nothing and leaving the
in-memory state unchanged.  When the destination data path is absent but
the destination meta path exists, a call on a replica whose undo flag is
clean still returns True, renames the data file, and silently leaves the
meta file and its in-memory path untouched; and when the undo flag is
stale (log.file_exist True with no log file on the backend, reachable
because clear never resets the flag), the call instead raises OSError
from os.rename after the data file has already been renamed. -/
theorem rename_amended (r : replica) (fs : FS) (new_path : String)
    (htx : r.transaction = false) :
    (fs.pathExists new_path = true →
      r.rename fs new_path = .ok (r, fs, false)) ∧
    (fs.pathExists new_path = false →
      fs.pathExists (make_meta_path new_path) = true →
      r.meta.meta_path ≠ r.data_path →
      r.meta.meta_path ≠ new_path →
      make_meta_path new_path ≠ r.data_path →
      make_meta_path new_path ≠ new_path →
      r.log.file_exist = false →
      (r.file_exist = true → ∃ d, fs.lookup r.data_path = some d) →
      ∃ r2 fs2, r.rename fs new_path = .ok (r2, fs2, true) ∧
        r2.meta.meta_path = r.meta.meta_path ∧
        fs2.lookup r.meta.meta_path = fs.lookup r.meta.meta_path) ∧
    (fs.pathExists new_path = false →
      fs.pathExists (make_meta_path new_path) = true →
      make_meta_path new_path ≠ r.data_path →
      make_meta_path new_path ≠ new_path →
      r.file_exist = true →
      (∃ d, fs.lookup r.data_path = some d) →
      r.log.file_exist = true →
      fs.pathExists r.log.log_path = false →
      r.log.log_path ≠ new_path →
      fs.pathExists (make_log_path new_path) = false →
      make_log_path new_path ≠ new_path →
      r.rename fs new_path =
        .error "OSError: rename: no such file or directory") := by
  refine ⟨?_, ?_, ?_⟩
  · intro hnew
    unfold replica.rename
    rw [htx]
    simp only [Bool.false_eq_true, if_false]
    rw [if_pos hnew]
  · intro hnew hmeta hne1 hne2 hmp1 hmp2 hlf hdl
    unfold replica.rename
    rw [htx]
    simp only [Bool.false_eq_true, if_false]
    rw [if_neg (by rw [hnew]; exact Bool.false_ne_true)]
    by_cases hfe : r.file_exist = true
    · obtain ⟨d, hd⟩ := hdl hfe
      rw [if_pos hfe, FS.rename_eq_of_lookup fs _ _ d hd]
      dsimp only
      have hl1 : (((fs.erase r.data_path).erase new_path).set
          new_path d).lookup r.meta.meta_path =
          fs.lookup r.meta.meta_path := by
        rw [FS.lookup_set_ne _ _ _ _ hne2, FS.lookup_erase_ne _ _ _ hne2,
          FS.lookup_erase_ne _ _ _ hne1]
      have hl2 : (((fs.erase r.data_path).erase new_path).set
          new_path d).pathExists (make_meta_path new_path) = true := by
        rw [FS.pathExists_set_ne _ _ _ _ hmp2,
          FS.pathExists_erase_ne _ _ _ hmp2,
          FS.pathExists_erase_ne _ _ _ hmp1]
        exact hmeta
      rw [meta_file.renameMeta_dest_present _ _ _ hl2]
      dsimp only
      by_cases hlp : (((fs.erase r.data_path).erase new_path).set
          new_path d).pathExists (make_log_path new_path) = true
      · rw [undo_log.renameLog_dest_present _ _ _ hlp]
        exact ⟨_, _, rfl, rfl, hl1⟩
      · rw [undo_log.renameLog_no_file _ _ _
          (by cases hx : (((fs.erase r.data_path).erase new_path).set
            new_path d).pathExists (make_log_path new_path) <;> simp_all)
          hlf]
        exact ⟨_, _, rfl, rfl, hl1⟩
    · rw [if_neg hfe]
      dsimp only
      rw [meta_file.renameMeta_dest_present _ _ _ hmeta]
      dsimp only
      by_cases hlp : fs.pathExists (make_log_path new_path) = true
      · rw [undo_log.renameLog_dest_present _ _ _ hlp]
        exact ⟨_, _, rfl, rfl, rfl⟩
      · rw [undo_log.renameLog_no_file _ _ _
          (by cases hx : fs.pathExists (make_log_path new_path) <;>
            simp_all) hlf]
        exact ⟨_, _, rfl, rfl, rfl⟩
  · intro hnew hmeta hmp1 hmp2 hfe hdl hlf hlogabs hlpnew hnlpabs hnlpnew
    obtain ⟨d, hd⟩ := hdl
    unfold replica.rename
    rw [htx]
    simp only [Bool.false_eq_true, if_false]
    rw [if_neg (by rw [hnew]; exact Bool.false_ne_true)]
    rw [if_pos hfe, FS.rename_eq_of_lookup fs _ _ d hd]
    dsimp only
    have hl2 : (((fs.erase r.data_path).erase new_path).set
        new_path d).pathExists (make_meta_path new_path) = true := by
      rw [FS.pathExists_set_ne _ _ _ _ hmp2,
        FS.pathExists_erase_ne _ _ _ hmp2,
        FS.pathExists_erase_ne _ _ _ hmp1]
      exact hmeta
    rw [meta_file.renameMeta_dest_present _ _ _ hl2]
    dsimp only
    have hnlp1 : (((fs.erase r.data_path).erase new_path).set
        new_path d).pathExists (make_log_path new_path) = false := by
      rw [FS.pathExists_set_ne _ _ _ _ hnlpnew]
      exact FS.pathExists_erase_of_false _ _ _
        (FS.pathExists_erase_of_false _ _ _ hnlpabs)
    have hlp1 : (((fs.erase r.data_path).erase new_path).set
        new_path d).pathExists r.log.log_path = false := by
      rw [FS.pathExists_set_ne _ _ _ _ hlpnew]
      exact FS.pathExists_erase_of_false _ _ _
        (FS.pathExists_erase_of_false _ _ _ hlogabs)
    rw [undo_log.renameLog_stale _ _ _ hnlp1 hlf hlp1]

/-- C5 witness. -/
theorem rename_amended_witness :
    ∃ r2 fs2, rC5.rename fsC5 "/b" = .ok (r2, fs2, true) ∧
      r2.meta.meta_path = rC5.meta.meta_path ∧
      fs2.lookup rC5.meta.meta_path = fsC5.lookup rC5.meta.meta_path :=
  (rename_amended rC5 fsC5 "/b" (by decide)).2.1 (by decide) (by decide)
    (by decide) (by decide) (by decide) (by decide) (by decide)
    (fun _ => ⟨.raw [1], by decide⟩)

/-- C7 counterexample: immediately after begin_transaction returns on a
committed replica with a data file, the replica is in a transaction but
the undo-log file does not exist on the backend — begin_transaction
appends the size record with sync_now = False and never creates the
file. -/
theorem undo_log_after_begin_counterexample :
    rC7.begin_transaction fsC7 = .ok (rC7tx, fsC7tx) ∧
    rC7tx.transaction = true ∧
    fsC7tx.pathExists (make_log_path rC7tx.data_path) = false := by decide

/-- The first undo-log sync after the step-2 fold of write_data_blocks
creates the log file. -/
theorem undo_log.foldl_sync_creates
    (xs : List (data_block × block_meta × Option (List Byte)))
    (lg : undo_log) (mt : meta_file) (fsx : FS) (hs : lg.synced = false) :
    ((((xs.foldl replica.undo_step (lg, mt)).1).sync fsx).2).pathExists
      lg.log_path = true := by
  have hc := undo_log.sync_creates _ fsx
    (replica.undo_step_foldl_synced xs (lg, mt) hs)
  rw [replica.undo_step_foldl_log_path] at hc
  exact hc

/-- C7 amended: with a data file present and the undo flag clean,
begin_transaction appends the pre-transaction size record with
sync_now = False and so does not create the undo-log file: immediately
after it returns, while the transaction is open, the undo file does not
exist.  The file is first created at the first undo-log sync, which
happens in any subsequent write_data_blocks call (for every request
list) because the data file exists; commit, rollback and fix_consistency
remove it via clear.  When the undo flag is stale (log.file_exist True
with the log file absent, reachable because clear never resets the
flag), begin_transaction instead raises OSError from the os.unlink
inside clear. -/
theorem undo_log_created_at_first_sync (r : replica) (fs : FS)
    (dbs : List data_block) (d : FileData)
    (htx : r.transaction = false) (hfe : r.file_exist = true)
    (hd : fs.lookup r.data_path = some d)
    (hno : fs.pathExists r.log.log_path = false)
    (h2 : r.log.log_path ≠ r.incomplete_path) :
    (r.log.file_exist = false →
      ∃ r1 fs1, r.begin_transaction fs = .ok (r1, fs1) ∧
        r1.transaction = true ∧
        r1.log.log_path = r.log.log_path ∧
        fs1.pathExists r.log.log_path = false ∧
        ∃ r2 fs2, r1.write_data_blocks fs1 dbs = .ok (r2, fs2) ∧
          fs2.pathExists r.log.log_path = true) ∧
    (r.log.file_exist = true →
      r.begin_transaction fs =
        .error "OSError: unlink: no such file or directory") := by
  have hstep : ∀ (sz : Nat) (fs1 : FS),
      ∃ r2 fs2, replica.write_data_blocks
        { r with
            log := { r.log with
                       block_logs := []
                       event_logs := [sz]
                       synced := false }
            transaction := true } fs1 dbs = .ok (r2, fs2) ∧
        fs2.pathExists r.log.log_path = true := by
    intro sz fs1
    unfold replica.write_data_blocks
    dsimp only
    simp only [Bool.not_true, Bool.false_eq_true, if_false]
    rw [if_pos hfe]
    refine ⟨_, _, rfl, ?_⟩
    apply meta_file.meta_sync_pathExists_mono
    split
    · apply replica.pathExists_write_raw_blocks_mono
      apply meta_file.meta_sync_pathExists_mono
      exact undo_log.foldl_sync_creates _ _ _ _ rfl
    · apply meta_file.meta_sync_pathExists_mono
      exact undo_log.foldl_sync_creates _ _ _ _ rfl
  have hstat : ∃ m, fs.statSize r.data_path = some m := by
    unfold FS.statSize
    rw [hd]
    cases d
    · exact ⟨_, rfl⟩
    · exact ⟨0, rfl⟩
    · exact ⟨0, rfl⟩
  obtain ⟨m, hm⟩ := hstat
  have habs : (((fs.erase r.data_path).erase r.incomplete_path).set
      r.incomplete_path d).pathExists r.log.log_path = false := by
    rw [FS.pathExists_set_ne _ _ _ _ h2]
    exact FS.pathExists_erase_of_false _ _ _
      (FS.pathExists_erase_of_false _ _ _ hno)
  constructor
  · intro hlf
    unfold replica.begin_transaction
    rw [htx]
    simp only [Bool.false_eq_true, if_false]
    rw [if_pos hfe, hm, FS.rename_eq_of_lookup fs _ _ d hd]
    dsimp only
    rw [undo_log.clear_no_flag _ _ hlf]
    dsimp only
    unfold undo_log.write_event_log
    exact ⟨_, _, rfl, rfl, rfl, habs, hstep m _⟩
  · intro hlf
    unfold replica.begin_transaction
    rw [htx]
    simp only [Bool.false_eq_true, if_false]
    rw [if_pos hfe, hm, FS.rename_eq_of_lookup fs _ _ d hd]
    dsimp only
    rw [undo_log.clear_stale _ _ hlf habs]

/-- C7 witness. -/
theorem undo_log_created_at_first_sync_witness :
    ∃ r1 fs1, rC7.begin_transaction fsC7 = .ok (r1, fs1) ∧
      r1.transaction = true ∧
      r1.log.log_path = rC7.log.log_path ∧
      fs1.pathExists rC7.log.log_path = false ∧
      ∃ r2 fs2,
        r1.write_data_blocks fs1 [⟨0, 2, [9, 9, 9, 9]⟩] = .ok (r2, fs2) ∧
        fs2.pathExists rC7.log.log_path = true :=
  (undo_log_created_at_first_sync rC7 fsC7 [⟨0, 2, [9, 9, 9, 9]⟩]
    (.raw [1, 2, 3, 4]) (by decide) (by decide) (by decide) (by decide)
    (by decide)).1 (by decide)

end Replication
